import Mathlib

/-!
Shallow embedding of the asyncmost repository (an asynchronous Mattermost
HTTP client) and proofs about it.

Source files embedded:
- src/asyncmost_vasiaplaton/exceptions.py : the exception hierarchy
  MattermostError < Exception, ReqError < MattermostError,
  NotFoundError < ReqError.
- src/asyncmost_vasiaplaton/mattermost.py : the Mattermost class with
  methods _send_get, _send_post, send_message, upload_file and
  send_message_with_files.

The embedding models the HTTP transport (the httpx library) as a function
from the request the code builds to a transport outcome; each operation
returns the list of requests it issued together with its Python outcome
(normal return or raised exception).  Python's json.dumps / json.loads are
modelled by an executable JSON serializer and parser over an inductive
JSON value type.
-/

mutual

/-- JSON values as produced by Python's json.loads: None, bool, int, str,
list and dict (insertion-ordered).  Float literals are outside the model
(none occur in this client's traffic).  The mutual formulation (instead of
a nested List) keeps recursion and induction elementary. -/
inductive Json where
  | null : Json
  | bool (b : Bool) : Json
  | num (n : Int) : Json
  | str (s : String) : Json
  | arr (elems : JsonArr) : Json
  | obj (members : JsonObj) : Json

inductive JsonArr where
  | nil : JsonArr
  | cons (hd : Json) (tl : JsonArr) : JsonArr

inductive JsonObj where
  | nil : JsonObj
  | cons (key : String) (val : Json) (tl : JsonObj) : JsonObj

end

/-- Builds a JSON array value from a Lean list of JSON values. -/
def JsonArr.ofList : List Json → JsonArr
  | [] => .nil
  | j :: rest => .cons j (JsonArr.ofList rest)

/-- Number of elements of a JSON array. -/
def JsonArr.size : JsonArr → Nat
  | .nil => 0
  | .cons _ tl => 1 + JsonArr.size tl

/-- Element at a (non-negative) position of a JSON array. -/
def JsonArr.get? : JsonArr → Nat → Option Json
  | .nil, _ => none
  | .cons hd _, 0 => some hd
  | .cons _ tl, n + 1 => JsonArr.get? tl n

/-- Lookup in a decoded JSON object.  Python's json.loads builds a dict, in
which a later duplicate key overwrites an earlier one, so the lookup
returns the last binding of the key. -/
def JsonObj.lookupLast (k : String) : JsonObj → Option Json
  | .nil => none
  | .cons k2 v tl =>
    match JsonObj.lookupLast k tl with
    | some r => some r
    | none => if k2 = k then some v else none

/-- Hexadecimal digit character for a value below 16 (lowercase, as in
Python's json \u00xx escapes). -/
def hexDig (n : Nat) : Char :=
  if n < 10 then Char.ofNat (48 + n) else Char.ofNat (87 + n)

/-- Numeric value of a hexadecimal digit character, if it is one. -/
def hexVal (c : Char) : Option Nat :=
  if '0' ≤ c ∧ c ≤ '9' then some (c.toNat - 48)
  else if 'a' ≤ c ∧ c ≤ 'f' then some (c.toNat - 87)
  else if 'A' ≤ c ∧ c ≤ 'F' then some (c.toNat - 55)
  else none

/-- JSON string escaping of one character, as json.dumps does it with
ensure_ascii off: the two-character escapes for quote, backslash and the
common control characters, \u00xx for the remaining control characters,
and every other character verbatim. -/
def escapeChar (c : Char) : List Char :=
  if c = '"' then ['\\', '"']
  else if c = '\\' then ['\\', '\\']
  else if c.toNat = 8 then ['\\', 'b']
  else if c.toNat = 9 then ['\\', 't']
  else if c.toNat = 10 then ['\\', 'n']
  else if c.toNat = 12 then ['\\', 'f']
  else if c.toNat = 13 then ['\\', 'r']
  else if c.toNat < 32 then
    ['\\', 'u', '0', '0', hexDig (c.toNat / 16), hexDig (c.toNat % 16)]
  else [c]

/-- JSON string escaping of a character sequence. -/
def escapeChars : List Char → List Char
  | [] => []
  | c :: rest => escapeChar c ++ escapeChars rest

/-- Serialized form of a JSON string literal, quotes included. -/
def dumpStringChars (s : String) : List Char :=
  '"' :: (escapeChars s.data ++ ['"'])

mutual

/-- Serialization of a JSON value, following json.dumps' default
formatting: elements joined by a comma and a space, a colon and a space
between a key and its value. -/
def Json.dumpChars : Json → List Char
  | .null => "null".data
  | .bool true => "true".data
  | .bool false => "false".data
  | .num n => (toString n).data
  | .str s => dumpStringChars s
  | .arr .nil => ['[', ']']
  | .arr (.cons hd tl) => '[' :: (Json.dumpChars hd ++ JsonArr.dumpTailChars tl)
  | .obj .nil => ['{', '}']
  | .obj (.cons k v tl) =>
    '{' :: (dumpStringChars k ++ ':' :: ' ' :: Json.dumpChars v ++ JsonObj.dumpTailChars tl)

/-- Serialization of the remaining elements of a JSON array, with the
closing bracket. -/
def JsonArr.dumpTailChars : JsonArr → List Char
  | .nil => [']']
  | .cons hd tl => ',' :: ' ' :: (Json.dumpChars hd ++ JsonArr.dumpTailChars tl)

/-- Serialization of the remaining members of a JSON object, with the
closing brace. -/
def JsonObj.dumpTailChars : JsonObj → List Char
  | .nil => ['}']
  | .cons k v tl =>
    ',' :: ' ' :: (dumpStringChars k ++ ':' :: ' ' :: Json.dumpChars v ++ JsonObj.dumpTailChars tl)

end

/-- Model of Python's json.dumps. -/
def Json.dumps (j : Json) : String :=
  String.mk (Json.dumpChars j)

/-- Drops the JSON whitespace characters (space, tab, newline, carriage
return) from the front of the input. -/
def skipWs : List Char → List Char
  | [] => []
  | c :: rest =>
    if c = ' ' ∨ c.toNat = 9 ∨ c.toNat = 10 ∨ c.toNat = 13 then skipWs rest
    else c :: rest

/-- Unescaped character for a single-character JSON string escape. -/
def simpleEscape (c : Char) : Option Char :=
  if c = '"' then some '"'
  else if c = '\\' then some '\\'
  else if c = '/' then some '/'
  else if c = 'b' then some (Char.ofNat 8)
  else if c = 'f' then some (Char.ofNat 12)
  else if c = 'n' then some (Char.ofNat 10)
  else if c = 'r' then some (Char.ofNat 13)
  else if c = 't' then some (Char.ofNat 9)
  else none

/-- Body of a JSON string literal, after the opening quote: returns the
decoded characters and the input after the closing quote.  Unescaped
control characters are rejected, as json.loads does in strict mode; a
lone \uXXXX surrogate escape is outside the model and rejected. -/
def parseStrAux : List Char → Option (List Char × List Char)
  | [] => none
  | c :: rest =>
    if c = '"' then some ([], rest)
    else if c = '\\' then
      match rest with
      | 'u' :: h1 :: h2 :: h3 :: h4 :: rest4 =>
        match hexVal h1, hexVal h2, hexVal h3, hexVal h4 with
        | some a, some b, some d, some e =>
          let n := ((a * 16 + b) * 16 + d) * 16 + e
          if 55296 ≤ n ∧ n ≤ 57343 then none
          else
            match parseStrAux rest4 with
            | some (content, r) => some (Char.ofNat n :: content, r)
            | none => none
        | _, _, _, _ => none
      | e :: rest2 =>
        match simpleEscape e with
        | some c2 =>
          match parseStrAux rest2 with
          | some (content, r) => some (c2 :: content, r)
          | none => none
        | none => none
      | [] => none
    else if c.toNat < 32 then none
    else
      match parseStrAux rest with
      | some (content, r) => some (c :: content, r)
      | none => none

/-- Accumulates decimal digits into a natural number. -/
def parseDigitsAux : List Char → Nat → Nat × List Char
  | [], acc => (acc, [])
  | c :: rest, acc =>
    if c.isDigit then parseDigitsAux rest (acc * 10 + (c.toNat - 48))
    else (acc, c :: rest)

/-- Tests whether a character sequence starts with a decimal digit. -/
def startsDigit : List Char → Bool
  | d :: _ => d.isDigit
  | [] => false

/-- Unsigned JSON integer literal.  Leading zeros are rejected as in
json.loads; a fractional part or an exponent marks a float literal, which
is outside the model. -/
def parseUNum : List Char → Option (Nat × List Char)
  | [] => none
  | c :: rest =>
    if c.isDigit then
      if c = '0' ∧ startsDigit rest then none
      else
        match parseDigitsAux rest (c.toNat - 48) with
        | (n, r) =>
          match r with
          | '.' :: _ => none
          | 'e' :: _ => none
          | 'E' :: _ => none
          | _ => some (n, r)
    else none

/-- JSON number literal (integers only; floats are outside the model). -/
def parseNumber (l : List Char) : Option (Json × List Char) :=
  match l with
  | '-' :: rest =>
    match parseUNum rest with
    | some (n, r) => some (.num (-(n : Int)), r)
    | none => none
  | _ =>
    match parseUNum l with
    | some (n, r) => some (.num (n : Int), r)
    | none => none

mutual

/-- JSON value parser.  The fuel argument bounds the recursion depth
through arrays and objects; it decreases at every call, and Json.loads
supplies more than enough of it for its input. -/
def parseVal : Nat → List Char → Option (Json × List Char)
  | 0, _ => none
  | fuel + 1, l =>
    match skipWs l with
    | 'n' :: 'u' :: 'l' :: 'l' :: rest => some (.null, rest)
    | 't' :: 'r' :: 'u' :: 'e' :: rest => some (.bool true, rest)
    | 'f' :: 'a' :: 'l' :: 's' :: 'e' :: rest => some (.bool false, rest)
    | '"' :: rest =>
      match parseStrAux rest with
      | some (content, r) => some (.str (String.mk content), r)
      | none => none
    | '[' :: rest => parseElems fuel rest
    | '{' :: rest => parseMembers fuel rest
    | other => parseNumber other

/-- Parses the contents of a JSON array, after the opening bracket. -/
def parseElems : Nat → List Char → Option (Json × List Char)
  | 0, _ => none
  | fuel + 1, l =>
    match skipWs l with
    | ']' :: rest => some (.arr .nil, rest)
    | l2 =>
      match parseVal fuel l2 with
      | some (v, r) =>
        match parseElemsTail fuel r with
        | some (tl, r2) => some (.arr (.cons v tl), r2)
        | none => none
      | none => none

/-- Parses the elements of a JSON array after the first one. -/
def parseElemsTail : Nat → List Char → Option (JsonArr × List Char)
  | 0, _ => none
  | fuel + 1, l =>
    match skipWs l with
    | ']' :: rest => some (.nil, rest)
    | ',' :: rest =>
      match parseVal fuel rest with
      | some (v, r) =>
        match parseElemsTail fuel r with
        | some (tl, r2) => some (.cons v tl, r2)
        | none => none
      | none => none
    | _ => none

/-- Parses the contents of a JSON object, after the opening brace. -/
def parseMembers : Nat → List Char → Option (Json × List Char)
  | 0, _ => none
  | fuel + 1, l =>
    match skipWs l with
    | '}' :: rest => some (.obj .nil, rest)
    | '"' :: rest =>
      match parseStrAux rest with
      | some (key, r) =>
        match skipWs r with
        | ':' :: r2 =>
          match parseVal fuel r2 with
          | some (v, r3) =>
            match parseMembersTail fuel r3 with
            | some (tl, r4) => some (.obj (.cons (String.mk key) v tl), r4)
            | none => none
          | none => none
        | _ => none
      | none => none
    | _ => none

/-- Parses the members of a JSON object after the first one. -/
def parseMembersTail : Nat → List Char → Option (JsonObj × List Char)
  | 0, _ => none
  | fuel + 1, l =>
    match skipWs l with
    | '}' :: rest => some (.nil, rest)
    | ',' :: rest =>
      match skipWs rest with
      | '"' :: r =>
        match parseStrAux r with
        | some (key, r1) =>
          match skipWs r1 with
          | ':' :: r2 =>
            match parseVal fuel r2 with
            | some (v, r3) =>
              match parseMembersTail fuel r3 with
              | some (tl, r4) => some (.cons (String.mk key) v tl, r4)
              | none => none
            | none => none
          | _ => none
        | none => none
      | _ => none
    | _ => none

end

/-- Model of Python's json.loads: parse one JSON value, allowing
surrounding whitespace and rejecting trailing data.  The fuel passed to
the recursive parser exceeds what any input of this length can consume. -/
def Json.loads (s : String) : Option Json :=
  match parseVal (2 * s.data.length + 2) s.data with
  | some (j, rest) => if skipWs rest = [] then some j else none
  | none => none

example : Json.loads "null" = some .null := rfl

example : Json.loads " \x7b\"id\": \"abc\"\x7d " = some (.obj (.cons "id" (.str "abc") .nil)) := rfl

example : Json.loads "\x7b\"file_infos\": [\x7b\"id\": \"idA\"\x7d]\x7d" =
    some (.obj (.cons "file_infos"
      (.arr (.cons (.obj (.cons "id" (.str "idA") .nil)) .nil)) .nil)) := rfl

example : Json.loads "not json" = none := rfl

example : Json.loads "[1, -2, true]" =
    some (.arr (.cons (.num 1) (.cons (.num (-2)) (.cons (.bool true) .nil)))) := rfl

example : Json.dumps (.obj (.cons "a" (.str "x\"y") (.cons "b" .null .nil))) =
    "\x7b\"a\": \"x\\\"y\", \"b\": null\x7d" := rfl

/-! ## Error taxonomy

Embedding of the Python exceptions the client can raise.  The repository's
exceptions.py defines MattermostError < Exception, ReqError <
MattermostError and NotFoundError < ReqError; the remaining constructors
are the standard Python exceptions the code in mattermost.py can raise,
none of which belongs to the repository's hierarchy: json.JSONDecodeError
(a ValueError) from json.loads, and KeyError / IndexError / TypeError from
the subscript chain in upload_file. -/

/-- Exceptions observable from the client's methods. -/
inductive PyErr where
  | mattermostError (msg : String)
  | reqError (msg : String)
  | notFoundError (msg : String)
  | jsonDecodeError (doc : String)
  | keyError (key : String)
  | indexError
  | typeError (msg : String)

/-- Membership in the MattermostError class (exceptions.py line 11): the
class itself and its subclasses ReqError and NotFoundError. -/
def PyErr.isMattermostError : PyErr → Bool
  | .mattermostError _ => true
  | .reqError _ => true
  | .notFoundError _ => true
  | _ => false

/-- Membership in the ReqError class (exceptions.py line 15): the class
itself and its subclass NotFoundError.  A Python `except ReqError` catches
exactly these. -/
def PyErr.isReqError : PyErr → Bool
  | .reqError _ => true
  | .notFoundError _ => true
  | _ => false

/-- Membership in the NotFoundError class (exceptions.py line 19). -/
def PyErr.isNotFoundError : PyErr → Bool
  | .notFoundError _ => true
  | _ => false

/-! ## Transport model

The httpx calls are modelled by a function from the request the code
builds to a transport outcome: either an httpx.HTTPError (the transport
failures caught by the `except httpx.HTTPError` clauses) or a response
carrying a status code and a body text. -/

/-- HTTP method of a request. -/
inductive Method where
  | get
  | post
deriving DecidableEq

/-- An HTTP request exactly as the code hands it to httpx: the url, the
query parameters (the params argument of client.get; None or a dict), the
headers dict, the data argument (the repository only ever passes a string
or nothing), the content argument (raw bytes, modelled as a list of byte
values), and the timeout argument when one is passed. -/
structure Request where
  method : Method
  url : String
  params : Option (List (String × String))
  headers : List (String × String)
  data : Option String
  content : Option (List Nat)
  timeout : Option Nat

/-- An HTTP response as the code consumes it: status_code and text. -/
structure Response where
  status_code : Nat
  text : String

/-- Outcome of handing a request to httpx. -/
inductive TransportResult where
  | httpError (msg : String)
  | ok (r : Response)

/-- The network environment: what httpx would do with each request. -/
def Net : Type := Request → TransportResult

/-- Client configuration, from Mattermost.__init__ (mattermost.py lines
31 to 34): base url, bot token and target channel id. -/
structure Mattermost where
  url : String
  token : String
  channel_id : String

/-- The GET request _send_get builds (mattermost.py lines 51 to 56): the
bearer-token Authorization header and a timeout of 10. -/
def mkGetRequest (mm : Mattermost) (url : String)
    (params : Option (List (String × String))) : Request :=
  { method := .get
    url := url
    params := params
    headers := [("Authorization", "Bearer " ++ mm.token)]
    data := none
    content := none
    timeout := some 10 }

/-- The POST request _send_post builds (mattermost.py lines 86 to 93): the
bearer-token Authorization header, a Content-Type header when data is
present and json_content is set, and no timeout argument. -/
def mkPostRequest (mm : Mattermost) (url : String) (data : Option String)
    (json_content : Bool) (content : Option (List Nat)) : Request :=
  { method := .post
    url := url
    params := none
    headers :=
      ("Authorization", "Bearer " ++ mm.token) ::
        (if data ≠ none ∧ json_content then [("Content-Type", "application/json")] else [])
    data := data
    content := content
    timeout := none }

/-- Shared tail of _send_get and _send_post (the code is duplicated
verbatim at mattermost.py lines 54 to 66 and 91 to 103): a transport
failure raises ReqError wrapping the cause; a status code outside
{200, 201} raises NotFoundError for 404 and ReqError with the code
otherwise; on 200/201 the body is handed to json.loads, whose failure on
an invalid body (json.JSONDecodeError) propagates untouched. -/
def dispatchOutcome (tr : TransportResult) : Except PyErr Json :=
  match tr with
  | .httpError e => .error (.reqError e)
  | .ok result =>
    if ¬ (result.status_code ∈ ([200, 201] : List Nat)) then
      if result.status_code = 404 then .error (.notFoundError "Not found somewhere")
      else .error (.reqError ("Got error status code, " ++ toString result.status_code))
    else
      match Json.loads result.text with
      | some parsed_response => .ok parsed_response
      | none => .error (.jsonDecodeError result.text)

/-- Mattermost._send_get (mattermost.py lines 36 to 66): builds the GET
request, hands it to the transport and interprets the outcome.  The first
component lists the requests the call issued. -/
def sendGet (mm : Mattermost) (net : Net) (url : String)
    (params : Option (List (String × String))) : List Request × Except PyErr Json :=
  let req := mkGetRequest mm url params
  ([req], dispatchOutcome (net req))

/-- Mattermost._send_post (mattermost.py lines 68 to 103): builds the POST
request, hands it to the transport and interprets the outcome.  The first
component lists the requests the call issued. -/
def sendPost (mm : Mattermost) (net : Net) (url : String) (data : Option String)
    (json_content : Bool) (content : Option (List Nat)) : List Request × Except PyErr Json :=
  let req := mkPostRequest mm url data json_content content
  ([req], dispatchOutcome (net req))

/-- The payload dict send_message builds (mattermost.py lines 115 to 119):
channel_id from the configuration, the message text, and file_ids, which
is None when no list is passed. -/
def messageSchema (channel_id : String) (message : String)
    (file_ids : Option (List Json)) : Json :=
  .obj (.cons "channel_id" (.str channel_id)
    (.cons "message" (.str message)
      (.cons "file_ids"
        (match file_ids with
         | none => .null
         | some ids => .arr (JsonArr.ofList ids)) .nil)))

/-- Mattermost.send_message (mattermost.py lines 105 to 121): serializes
the payload with json.dumps and posts it with json_content set to the
posts endpoint.  Python discards _send_post's parsed response and returns
None; the model keeps the dispatcher outcome so that propagated errors
stay observable. -/
def sendMessage (mm : Mattermost) (net : Net) (message : String)
    (file_ids : Option (List Json)) : List Request × Except PyErr Json :=
  sendPost mm net (mm.url ++ "/api/v4/posts")
    (some (Json.dumps (messageSchema mm.channel_id message file_ids))) true none

/-- Allowed subscript keys of a Python expression r[k] as used in
upload_file: a string key or an integer index. -/
inductive PyKey where
  | s (key : String)
  | i (idx : Int)

/-- Python subscription j[k] on a decoded JSON value: dict lookup with
KeyError when the key is absent, list indexing (negative indices count
from the end) with IndexError when out of range, string indexing
returning a one-character string, and TypeError on everything else, as
the Python runtime does. -/
def Json.getItem : Json → PyKey → Except PyErr Json
  | .obj ms, .s k =>
    match ms.lookupLast k with
    | some v => .ok v
    | none => .error (.keyError k)
  | .obj _, .i n => .error (.keyError (toString n))
  | .arr xs, .i n =>
    let len : Int := xs.size
    let idx : Int := if n < 0 then n + len else n
    if 0 ≤ idx ∧ idx < len then
      match xs.get? idx.toNat with
      | some v => .ok v
      | none => .error .indexError
    else .error .indexError
  | .arr _, .s _ => .error (.typeError "list indices must be integers or slices, not str")
  | .str s, .i n =>
    let len : Int := s.data.length
    let idx : Int := if n < 0 then n + len else n
    if 0 ≤ idx ∧ idx < len then
      match s.data.get? idx.toNat with
      | some c => .ok (.str (String.mk [c]))
      | none => .error .indexError
    else .error .indexError
  | .str _, .s _ => .error (.typeError "string indices must be integers")
  | .null, _ => .error (.typeError "'NoneType' object is not subscriptable")
  | .bool _, _ => .error (.typeError "'bool' object is not subscriptable")
  | .num _, _ => .error (.typeError "'int' object is not subscriptable")

/-- The subscript chain of upload_file's return expression
(mattermost.py line 137): r["file_infos"][0]["id"], each step raising the
corresponding untyped Python exception when it does not apply. -/
def fileIdPath (r : Json) : Except PyErr Json :=
  (r.getItem (.s "file_infos")).bind fun x =>
    (x.getItem (.i 0)).bind fun y =>
      y.getItem (.s "id")

/-- Mattermost.upload_file (mattermost.py lines 123 to 137): posts the raw
bytes to the files endpoint, with channel_id and filename interpolated
into the query string, then returns r["file_infos"][0]["id"]. -/
def uploadFile (mm : Mattermost) (net : Net) (filename : String)
    (content : List Nat) : List Request × Except PyErr Json :=
  let url := mm.url ++ "/api/v4/files?channel_id=" ++ mm.channel_id ++ "&filename=" ++ filename
  let res := sendPost mm net url none false (some content)
  (res.1, res.2.bind fileIdPath)

/-- The upload loop of send_message_with_files (mattermost.py lines 147
to 150): uploads each attachment in order, collecting the returned ids;
a raised error propagates immediately and ends the loop. -/
def uploadAll (mm : Mattermost) (net : Net) :
    List (String × List Nat) → List Request × Except PyErr (List Json)
  | [] => ([], .ok [])
  | (name, content) :: rest =>
    let first := uploadFile mm net name content
    match first.2 with
    | .error e => (first.1, .error e)
    | .ok fid =>
      let more := uploadAll mm net rest
      (first.1 ++ more.1,
        match more.2 with
        | .error e => .error e
        | .ok ids => .ok (fid :: ids))

/-- Mattermost.send_message_with_files (mattermost.py lines 139 to 152):
runs the upload loop, then sends the message with the collected ids. -/
def sendMessageWithFiles (mm : Mattermost) (net : Net) (message : String)
    (additional_files : List (String × List Nat)) : List Request × Except PyErr Json :=
  let ups := uploadAll mm net additional_files
  match ups.2 with
  | .error e => (ups.1, .error e)
  | .ok ids =>
    let sent := sendMessage mm net message (some ids)
    (ups.1 ++ sent.1, sent.2)


/-! ## Client state made explicit

A Python method can mutate its object only by assigning to attributes of
self.  None of send_message, upload_file and send_message_with_files
(mattermost.py lines 105 to 152) contains such an assignment, so the
client state each returns control with is the state it was entered with;
the wrappers below make that resulting state an explicit component. -/

/-- Mattermost.send_message together with the client state it leaves
behind. -/
def sendMessageWithState (mm : Mattermost) (net : Net) (message : String)
    (file_ids : Option (List Json)) : Mattermost × (List Request × Except PyErr Json) :=
  (mm, sendMessage mm net message file_ids)

/-- Mattermost.upload_file together with the client state it leaves
behind. -/
def uploadFileWithState (mm : Mattermost) (net : Net) (filename : String)
    (content : List Nat) : Mattermost × (List Request × Except PyErr Json) :=
  (mm, uploadFile mm net filename content)

/-- Mattermost.send_message_with_files together with the client state it
leaves behind. -/
def sendMessageWithFilesWithState (mm : Mattermost) (net : Net) (message : String)
    (additional_files : List (String × List Nat)) :
    Mattermost × (List Request × Except PyErr Json) :=
  (mm, sendMessageWithFiles mm net message additional_files)

/-! ## Concrete fixtures

A sample client configuration and sample network environments, used to
evaluate the embedded operations at concrete inputs. -/

/-- A sample client configuration. -/
def mm0 : Mattermost :=
  { url := "http://mm", token := "tok", channel_id := "chan" }

/-- A network in which every request succeeds with an empty JSON object. -/
def netEmptyObj : Net := fun _ => .ok { status_code := 200, text := "\x7b\x7d" }

/-- A network answering GET with a JSON body and POST with a body that is
not JSON. -/
def netGetJsonPostBad : Net := fun req =>
  match req.method with
  | .get => .ok { status_code := 200, text := "\x7b\"id\": \"abc\"\x7d" }
  | .post => .ok { status_code := 201, text := "oops" }

/-- A network answering every request with status 500. -/
def net500 : Net := fun _ => .ok { status_code := 500, text := "err" }

/-- A network answering every request with status 404. -/
def net404 : Net := fun _ => .ok { status_code := 404, text := "nf" }

/-- A network handing out file ids for the uploads of a.png and b.png and
accepting everything else. -/
def netUploads : Net := fun req =>
  if req.url = "http://mm/api/v4/files?channel_id=chan&filename=a.png" then
    .ok { status_code := 200, text := "\x7b\"file_infos\": [\x7b\"id\": \"idA\"\x7d]\x7d" }
  else if req.url = "http://mm/api/v4/files?channel_id=chan&filename=b.png" then
    .ok { status_code := 201, text := "\x7b\"file_infos\": [\x7b\"id\": \"idB\"\x7d]\x7d" }
  else .ok { status_code := 200, text := "\x7b\x7d" }

/-- A network in which the upload of a.png succeeds and the upload of
b.png is answered with status 404. -/
def netSecondUploadFails : Net := fun req =>
  if req.url = "http://mm/api/v4/files?channel_id=chan&filename=a.png" then
    .ok { status_code := 200, text := "\x7b\"file_infos\": [\x7b\"id\": \"idA\"\x7d]\x7d" }
  else if req.url = "http://mm/api/v4/files?channel_id=chan&filename=b.png" then
    .ok { status_code := 404, text := "nf" }
  else .ok { status_code := 200, text := "\x7b\x7d" }

/-! ## Round-trip lemmas for the JSON codec -/

/-- hexVal inverts hexDig on digit values. -/
theorem hexVal_hexDig (d : Nat) (h : d < 16) : hexVal (hexDig d) = some d := by
  interval_cases d <;> rfl

/-- Leading space is JSON whitespace. -/
theorem skipWs_space (l : List Char) : skipWs (' ' :: l) = skipWs l := by
  simp [skipWs]

/-- Char.ofNat applied to a value known to be a character's code point
gives back that character. -/
theorem charOfNat_congr (x : Nat) (c : Char) (h : x = c.toNat) : Char.ofNat x = c := by
  rw [h]
  exact Char.ofNat_toNat c

/-- Decoding inverts escaping for every character sequence. -/
theorem parseStrAux_escapeChars (l rest : List Char) :
    parseStrAux (escapeChars l ++ '"' :: rest) = some (l, rest) := by
  induction l with
  | nil =>
    rw [show escapeChars [] ++ '"' :: rest = '"' :: rest by simp [escapeChars]]
    rw [parseStrAux.eq_def]
    simp
  | cons c tl ih =>
    show parseStrAux ((escapeChar c ++ escapeChars tl) ++ '"' :: rest) = some (c :: tl, rest)
    rw [List.append_assoc]
    by_cases h1 : c = '"'
    · subst h1
      simp [escapeChar, parseStrAux, simpleEscape, ih]
    by_cases h2 : c = '\\'
    · subst h2
      simp [escapeChar, parseStrAux, simpleEscape, ih]
    by_cases h8 : c.toNat = 8
    · have hesc : escapeChar c = ['\\', 'b'] := by simp [escapeChar, h1, h2, h8]
      rw [hesc]
      simp only [List.cons_append, List.nil_append]
      rw [parseStrAux.eq_def]
      simp [simpleEscape, ih]
      rw [← h8]
      exact Char.ofNat_toNat c
    by_cases h9 : c.toNat = 9
    · have hesc : escapeChar c = ['\\', 't'] := by simp [escapeChar, h1, h2, h8, h9]
      rw [hesc]
      simp only [List.cons_append, List.nil_append]
      rw [parseStrAux.eq_def]
      simp [simpleEscape, ih]
      rw [← h9]
      exact Char.ofNat_toNat c
    by_cases h10 : c.toNat = 10
    · have hesc : escapeChar c = ['\\', 'n'] := by simp [escapeChar, h1, h2, h8, h9, h10]
      rw [hesc]
      simp only [List.cons_append, List.nil_append]
      rw [parseStrAux.eq_def]
      simp [simpleEscape, ih]
      rw [← h10]
      exact Char.ofNat_toNat c
    by_cases h12 : c.toNat = 12
    · have hesc : escapeChar c = ['\\', 'f'] := by
        simp [escapeChar, h1, h2, h8, h9, h10, h12]
      rw [hesc]
      simp only [List.cons_append, List.nil_append]
      rw [parseStrAux.eq_def]
      simp [simpleEscape, ih]
      rw [← h12]
      exact Char.ofNat_toNat c
    by_cases h13 : c.toNat = 13
    · have hesc : escapeChar c = ['\\', 'r'] := by
        simp [escapeChar, h1, h2, h8, h9, h10, h12, h13]
      rw [hesc]
      simp only [List.cons_append, List.nil_append]
      rw [parseStrAux.eq_def]
      simp [simpleEscape, ih]
      rw [← h13]
      exact Char.ofNat_toNat c
    by_cases hlt : c.toNat < 32
    · have hesc : escapeChar c = ['\\', 'u', '0', '0', hexDig (c.toNat / 16), hexDig (c.toNat % 16)] := by
        simp [escapeChar, h1, h2, h8, h9, h10, h12, h13, hlt]
      rw [hesc]
      simp only [List.cons_append, List.nil_append]
      rw [parseStrAux.eq_def]
      simp [hexVal_hexDig _ (show c.toNat / 16 < 16 by omega),
        hexVal_hexDig _ (show c.toNat % 16 < 16 by omega),
        (show hexVal '0' = some 0 from rfl), ih]
      constructor
      · omega
      · exact charOfNat_congr _ c (by omega)
    · have hesc : escapeChar c = [c] := by
        simp [escapeChar, h1, h2, h8, h9, h10, h12, h13, hlt]
      rw [hesc]
      simp only [List.cons_append, List.nil_append]
      rw [parseStrAux.eq_def]
      simp [h1, h2, hlt, ih]

/-- String.mk is the identity on a string's character data. -/
theorem stringMk_data (s : String) : String.mk s.data = s := rfl

/-- Serialized JSON strings round-trip through the value parser at any
positive fuel. -/
theorem parseVal_dumpString (fuel : Nat) (s : String) (rest : List Char) :
    parseVal (fuel + 1) (dumpStringChars s ++ rest) = some (.str s, rest) := by
  rw [show dumpStringChars s ++ rest = '"' :: (escapeChars s.data ++ '"' :: rest) by
    simp [dumpStringChars]]
  rw [parseVal.eq_def]
  simp [skipWs, parseStrAux_escapeChars, stringMk_data]

/-- The value parser ignores a leading space. -/
theorem parseVal_space (fuel : Nat) (l : List Char) :
    parseVal (fuel + 1) (' ' :: l) = parseVal (fuel + 1) l := by
  rw [parseVal.eq_def]
  conv_rhs => rw [parseVal.eq_def]
  simp only [skipWs_space]

/-- The tail of a serialized array of strings parses back to the
corresponding JSON array elements, given fuel beyond the element count. -/
theorem parseElemsTail_strs (ids : List String) :
    ∀ (fuel : Nat) (rest : List Char), ids.length + 1 ≤ fuel →
    parseElemsTail fuel (JsonArr.dumpTailChars (JsonArr.ofList (ids.map Json.str)) ++ rest) =
      some (JsonArr.ofList (ids.map Json.str), rest) := by
  induction ids with
  | nil =>
    intro fuel rest h
    obtain ⟨f, rfl⟩ : ∃ f, fuel = f + 1 := ⟨fuel - 1, by omega⟩
    rw [show JsonArr.ofList (List.map Json.str []) = .nil by simp [JsonArr.ofList]]
    rw [parseElemsTail.eq_def]
    simp [JsonArr.dumpTailChars, skipWs]
  | cons id tl ih =>
    intro fuel rest h
    obtain ⟨f, rfl⟩ : ∃ f, fuel = f + 1 := ⟨fuel - 1, by omega⟩
    obtain ⟨f2, rfl⟩ : ∃ f2, f = f2 + 1 := ⟨f - 1, by simp at h; omega⟩
    rw [show JsonArr.ofList (List.map Json.str (id :: tl)) =
      .cons (.str id) (JsonArr.ofList (tl.map Json.str)) by simp [JsonArr.ofList]]
    rw [parseElemsTail.eq_def]
    simp only [JsonArr.dumpTailChars, List.cons_append, List.append_assoc]
    simp only [skipWs, if_neg, ite_false, ite_true, if_pos]
    simp only [show (',' = ' ' ∨ (',').toNat = 9 ∨ (',').toNat = 10 ∨ (',').toNat = 13) = False by
      simp, ite_false]
    rw [parseVal_space]
    simp only [Json.dumpChars]
    rw [parseVal_dumpString]
    simp [ih (f2 + 1) rest (by simp at h ⊢; omega)]

/-- Serialized arrays of strings round-trip through the value parser,
given fuel beyond the element count. -/
theorem parseVal_strArray (ids : List String) (fuel : Nat) (rest : List Char)
    (h : ids.length + 3 ≤ fuel) :
    parseVal fuel (Json.dumpChars (.arr (JsonArr.ofList (ids.map Json.str))) ++ rest) =
      some (.arr (JsonArr.ofList (ids.map Json.str)), rest) := by
  obtain ⟨f, rfl⟩ : ∃ f, fuel = f + 1 := ⟨fuel - 1, by omega⟩
  obtain ⟨f2, rfl⟩ : ∃ f2, f = f2 + 1 := ⟨f - 1, by omega⟩
  cases ids with
  | nil =>
    rw [show JsonArr.ofList (List.map Json.str []) = .nil by simp [JsonArr.ofList]]
    rw [parseVal.eq_def]
    simp only [Json.dumpChars, List.cons_append, List.nil_append]
    simp only [skipWs, show ('[' = ' ' ∨ ('[').toNat = 9 ∨ ('[').toNat = 10 ∨ ('[').toNat = 13) =
      False by simp, ite_false]
    rw [parseElems.eq_def]
    simp [skipWs]
  | cons id tl =>
    rw [show JsonArr.ofList (List.map Json.str (id :: tl)) =
      .cons (.str id) (JsonArr.ofList (tl.map Json.str)) by simp [JsonArr.ofList]]
    rw [parseVal.eq_def]
    simp only [Json.dumpChars, List.cons_append, List.nil_append, List.append_assoc]
    simp only [skipWs, show ('[' = ' ' ∨ ('[').toNat = 9 ∨ ('[').toNat = 10 ∨ ('[').toNat = 13) =
      False by simp, ite_false]
    rw [parseElems.eq_def]
    obtain ⟨f3, rfl⟩ : ∃ f3, f2 = f3 + 1 := ⟨f2 - 1, by simp at h; omega⟩
    simp only [dumpStringChars, List.cons_append, List.append_assoc, List.nil_append]
    simp [skipWs, parseVal.eq_def, parseStrAux_escapeChars, stringMk_data,
      parseElemsTail_strs tl (f3 + 1) rest (by simp at h; omega)]

/-- A closing brace ends the member tail of an object. -/
theorem parseMembersTail_nilEnd (f : Nat) (rest : List Char) :
    parseMembersTail (f + 1) ('}' :: rest) = some (.nil, rest) := by
  rw [parseMembersTail.eq_def]
  simp [skipWs]

/-- One further serialized object member parses, given parses of its value
and of the remaining tail. -/
theorem parseMembersTail_step (k : String) (v : Json) (f : Nat) (vin r2 r3 : List Char)
    (tl : JsonObj) (hv : parseVal f vin = some (v, r2))
    (htl : parseMembersTail f r2 = some (tl, r3)) :
    parseMembersTail (f + 1) (',' :: ' ' :: (dumpStringChars k ++ ':' :: vin)) =
      some (.cons k v tl, r3) := by
  rw [parseMembersTail.eq_def]
  simp only [dumpStringChars, List.cons_append, List.append_assoc, List.nil_append]
  simp [skipWs, parseStrAux_escapeChars, stringMk_data, hv, htl]

/-- A serialized three-member object of the message-payload shape
round-trips through the value parser, given a parse of the third value. -/
theorem parseVal_obj3 (ch m : String) (v : Json) (f4 : Nat) (rest : List Char)
    (hv : parseVal (f4 + 1) (Json.dumpChars v ++ '}' :: rest) = some (v, '}' :: rest)) :
    parseVal (f4 + 5) (Json.dumpChars (.obj (.cons "channel_id" (.str ch)
      (.cons "message" (.str m) (.cons "file_ids" v .nil)))) ++ rest) =
    some (.obj (.cons "channel_id" (.str ch) (.cons "message" (.str m)
      (.cons "file_ids" v .nil))), rest) := by
  have hv2 : parseVal (f4 + 1) (' ' :: (Json.dumpChars v ++ '}' :: rest)) =
      some (v, '}' :: rest) := by
    rw [parseVal_space]
    exact hv
  have h1 : parseMembersTail (f4 + 2)
      (JsonObj.dumpTailChars (.cons "file_ids" v .nil) ++ rest) =
      some (.cons "file_ids" v .nil, rest) := by
    rw [show JsonObj.dumpTailChars (JsonObj.cons "file_ids" v .nil) ++ rest =
      ',' :: ' ' :: (dumpStringChars "file_ids" ++ ':' ::
        (' ' :: (Json.dumpChars v ++ '}' :: rest))) by
      simp [JsonObj.dumpTailChars]]
    exact parseMembersTail_step "file_ids" v (f4 + 1) _ _ _ _ hv2
      (parseMembersTail_nilEnd f4 rest)
  have hvm : parseVal (f4 + 2) (' ' :: (dumpStringChars m ++
      (JsonObj.dumpTailChars (.cons "file_ids" v .nil) ++ rest))) =
      some (.str m, JsonObj.dumpTailChars (.cons "file_ids" v .nil) ++ rest) := by
    rw [show f4 + 2 = (f4 + 1) + 1 from rfl, parseVal_space]
    exact parseVal_dumpString (f4 + 1) m _
  have h2 : parseMembersTail (f4 + 3)
      (JsonObj.dumpTailChars (.cons "message" (.str m) (.cons "file_ids" v .nil)) ++ rest) =
      some (.cons "message" (.str m) (.cons "file_ids" v .nil), rest) := by
    rw [show JsonObj.dumpTailChars (JsonObj.cons "message" (.str m)
        (.cons "file_ids" v .nil)) ++ rest =
      ',' :: ' ' :: (dumpStringChars "message" ++ ':' ::
        (' ' :: (dumpStringChars m ++
          (JsonObj.dumpTailChars (.cons "file_ids" v .nil) ++ rest)))) by
      simp [JsonObj.dumpTailChars, Json.dumpChars]]
    exact parseMembersTail_step "message" (.str m) (f4 + 2) _ _ _ _ hvm h1
  have hvch : parseVal (f4 + 3) (' ' :: '"' :: (escapeChars ch.data ++ '"' ::
      (JsonObj.dumpTailChars (.cons "message" (.str m) (.cons "file_ids" v .nil)) ++ rest))) =
      some (.str ch, JsonObj.dumpTailChars
        (.cons "message" (.str m) (.cons "file_ids" v .nil)) ++ rest) := by
    rw [show ('"' :: (escapeChars ch.data ++ '"' ::
        (JsonObj.dumpTailChars (JsonObj.cons "message" (Json.str m)
          (JsonObj.cons "file_ids" v JsonObj.nil)) ++ rest))) =
      dumpStringChars ch ++ (JsonObj.dumpTailChars (JsonObj.cons "message" (Json.str m)
        (JsonObj.cons "file_ids" v JsonObj.nil)) ++ rest) by simp [dumpStringChars]]
    rw [show f4 + 3 = (f4 + 2) + 1 from rfl, parseVal_space]
    exact parseVal_dumpString (f4 + 2) ch _
  rw [show f4 + 5 = (f4 + 4) + 1 from rfl, parseVal.eq_def]
  simp only [Json.dumpChars, List.cons_append, List.append_assoc, List.nil_append]
  simp only [skipWs, show ('{' = ' ' ∨ ('{').toNat = 9 ∨ ('{').toNat = 10 ∨ ('{').toNat = 13) =
    False by simp, ite_false]
  rw [show f4 + 4 = (f4 + 3) + 1 from rfl, parseMembers.eq_def]
  simp only [dumpStringChars, List.cons_append, List.append_assoc, List.nil_append]
  simp [skipWs, parseStrAux_escapeChars, stringMk_data, hvch, h2]

/-- The serialized message payload round-trips through the value parser,
given fuel beyond the number of file ids. -/
theorem parseVal_messageSchema (ch m : String) (fids : Option (List String)) (fuel : Nat)
    (rest : List Char)
    (h : (match fids with | none => 0 | some l => l.length) + 8 ≤ fuel) :
    parseVal fuel (Json.dumpChars (messageSchema ch m
      (Option.map (fun l => l.map Json.str) fids)) ++ rest) =
      some (messageSchema ch m (Option.map (fun l => l.map Json.str) fids), rest) := by
  obtain ⟨f4, rfl⟩ : ∃ f4, fuel = f4 + 5 := ⟨fuel - 5, by omega⟩
  cases fids with
  | none =>
    simp only [Option.map_none', messageSchema]
    exact parseVal_obj3 ch m .null f4 rest (by
      rw [show Json.dumpChars Json.null ++ '}' :: rest =
        'n' :: 'u' :: 'l' :: 'l' :: '}' :: rest by simp [Json.dumpChars]]
      rw [parseVal.eq_def]
      simp [skipWs])
  | some ids =>
    simp only [Option.map_some', messageSchema]
    exact parseVal_obj3 ch m (.arr (JsonArr.ofList (ids.map Json.str))) f4 rest
      (parseVal_strArray ids (f4 + 1) ('}' :: rest) (by simp at h; omega))

/-- The serialized tail of an array of strings is longer than the number
of its elements. -/
theorem dumpTailChars_strs_len (l : List String) :
    l.length + 1 ≤ (JsonArr.dumpTailChars (JsonArr.ofList (l.map Json.str))).length := by
  induction l with
  | nil => simp [JsonArr.ofList, JsonArr.dumpTailChars]
  | cons a t ih =>
    simp only [List.map, JsonArr.ofList, JsonArr.dumpTailChars, List.length_cons,
      List.length_append] at ih ⊢
    omega

/-- The fuel Json.loads grants a serialized message payload dominates the
fuel parseVal_messageSchema asks for. -/
theorem dumpChars_messageSchema_len (ch m : String) (fids : Option (List String)) :
    (match fids with | none => 0 | some l => l.length) + 8 ≤
      2 * (Json.dumpChars (messageSchema ch m
        (Option.map (fun l => l.map Json.str) fids))).length + 2 := by
  cases fids with
  | none =>
    simp [messageSchema, Json.dumpChars, JsonObj.dumpTailChars, dumpStringChars,
      List.length_append]
    omega
  | some ids =>
    cases ids with
    | nil =>
      simp [messageSchema, Json.dumpChars, JsonObj.dumpTailChars, dumpStringChars,
        JsonArr.ofList, List.length_append]
      omega
    | cons a t =>
      have hb := dumpTailChars_strs_len t
      simp only [messageSchema, Option.map_some', List.map, JsonArr.ofList, Json.dumpChars,
        JsonObj.dumpTailChars, JsonArr.dumpTailChars, dumpStringChars, List.length_append,
        List.length_cons, List.length_nil]
      omega

/-- Python's json round-trips the message payload: loads after dumps is
the identity on every payload send_message can build from a channel id, a
message text and an optional list of file-id strings. -/
theorem loads_dumps_messageSchema (ch m : String) (fids : Option (List String)) :
    Json.loads (Json.dumps (messageSchema ch m (Option.map (fun l => l.map Json.str) fids))) =
      some (messageSchema ch m (Option.map (fun l => l.map Json.str) fids)) := by
  have hdata : (Json.dumps (messageSchema ch m
      (Option.map (fun l => l.map Json.str) fids))).data
      = Json.dumpChars (messageSchema ch m (Option.map (fun l => l.map Json.str) fids)) := rfl
  have hp := parseVal_messageSchema ch m fids
    (2 * (Json.dumps (messageSchema ch m
      (Option.map (fun l => l.map Json.str) fids))).data.length + 2) []
    (by rw [hdata]; exact dumpChars_messageSchema_len ch m fids)
  rw [List.append_nil] at hp
  unfold Json.loads
  rw [hdata] at hp ⊢
  rw [hp]
  simp [skipWs]

/-! ## Error classification of the subscript chain -/

/-- Python subscription on a decoded JSON value only ever raises KeyError,
IndexError or TypeError, none of which the ReqError hierarchy contains. -/
theorem getItem_not_reqError (j : Json) (k : PyKey) (e : PyErr)
    (h : Json.getItem j k = .error e) : e.isReqError = false := by
  cases j <;> cases k <;> simp only [Json.getItem] at h <;>
    (try split at h) <;> (try split at h) <;> (try split at h) <;>
    simp_all [PyErr.isReqError] <;> subst h <;> rfl

/-- Every failure of the subscript chain r["file_infos"][0]["id"] is a
KeyError, IndexError or TypeError; none is recognized by the ReqError
hierarchy. -/
theorem fileIdPath_not_reqError (r : Json) (e : PyErr) (h : fileIdPath r = .error e) :
    e.isReqError = false := by
  unfold fileIdPath at h
  cases h1 : r.getItem (.s "file_infos") with
  | error e1 =>
    rw [h1] at h
    simp only [Except.bind] at h
    injection h with h
    subst h
    exact getItem_not_reqError r _ e1 h1
  | ok x =>
    rw [h1] at h
    simp only [Except.bind] at h
    cases h2 : x.getItem (.i 0) with
    | error e2 =>
      rw [h2] at h
      injection h with h
      subst h
      exact getItem_not_reqError x _ e2 h2
    | ok y =>
      rw [h2] at h
      dsimp only at h
      cases h3 : y.getItem (.s "id") with
      | error e3 =>
        rw [h3] at h
        injection h with h
        subst h
        exact getItem_not_reqError y _ e3 h3
      | ok v =>
        rw [h3] at h
        exact absurd h (by simp)

/-! ## Dispatcher outcome lemmas -/

/-- On a 200 or 201 response the dispatcher returns the decoded JSON
unchanged, and propagates the json.loads failure when the body does not
decode. -/
theorem dispatchOutcome_success (r : Response)
    (hs : r.status_code = 200 ∨ r.status_code = 201) :
    (∀ j, Json.loads r.text = some j → dispatchOutcome (.ok r) = .ok j) ∧
    (Json.loads r.text = none → dispatchOutcome (.ok r) = .error (.jsonDecodeError r.text)) := by
  constructor
  · intro j hj
    rcases hs with hs | hs <;> simp [dispatchOutcome, hs, hj]
  · intro hn
    rcases hs with hs | hs <;> simp [dispatchOutcome, hs, hn]

/-- On a response with a status code outside 200, 201 and 404 the
dispatcher raises ReqError carrying the code. -/
theorem dispatchOutcome_badStatus (r : Response) (h200 : r.status_code ≠ 200)
    (h201 : r.status_code ≠ 201) (h404 : r.status_code ≠ 404) :
    dispatchOutcome (.ok r) =
      .error (.reqError ("Got error status code, " ++ toString r.status_code)) := by
  simp [dispatchOutcome, h200, h201, h404]

/-- On a 404 response the dispatcher raises NotFoundError. -/
theorem dispatchOutcome_notFound (r : Response) (h404 : r.status_code = 404) :
    dispatchOutcome (.ok r) = .error (.notFoundError "Not found somewhere") := by
  simp [dispatchOutcome, h404]

/-! ## Claim theorems -/

/-- C7: for every channel id, every message text and every file-id list
(including the absent case), JSON-encoding the payload send_message
builds and decoding it again yields a structure with the same channel id,
the same message text and the same file ids; the absent-fileIds case is
carried as the representable JSON null value under the file_ids key. -/
theorem c7_payload_roundtrip (ch m : String) (fids : Option (List String)) :
    Json.loads (Json.dumps (messageSchema ch m (Option.map (fun l => l.map Json.str) fids))) =
      some (messageSchema ch m (Option.map (fun l => l.map Json.str) fids)) ∧
    messageSchema ch m none =
      Json.obj (.cons "channel_id" (.str ch) (.cons "message" (.str m)
        (.cons "file_ids" Json.null .nil))) :=
  ⟨loads_dumps_messageSchema ch m fids, rfl⟩

/-- C9: the client configuration (base url, token, channel id) is left
unchanged by every public operation, whether the network makes it
succeed or fail: each operation hands back exactly the configuration it
started from. -/
theorem c9_config_immutable (mm : Mattermost) (net : Net) (message filename : String)
    (file_ids : Option (List Json)) (content : List Nat)
    (files : List (String × List Nat)) :
    ((sendMessageWithState mm net message file_ids).1.url = mm.url ∧
     (sendMessageWithState mm net message file_ids).1.token = mm.token ∧
     (sendMessageWithState mm net message file_ids).1.channel_id = mm.channel_id) ∧
    ((uploadFileWithState mm net filename content).1.url = mm.url ∧
     (uploadFileWithState mm net filename content).1.token = mm.token ∧
     (uploadFileWithState mm net filename content).1.channel_id = mm.channel_id) ∧
    ((sendMessageWithFilesWithState mm net message files).1.url = mm.url ∧
     (sendMessageWithFilesWithState mm net message files).1.token = mm.token ∧
     (sendMessageWithFilesWithState mm net message files).1.channel_id = mm.channel_id) :=
  ⟨⟨rfl, rfl, rfl⟩, ⟨rfl, rfl, rfl⟩, ⟨rfl, rfl, rfl⟩⟩

/-- C10: with an empty attachment list, send_message_with_files performs
no uploads and calls send_message with the empty file-id list, whose
payload carries file_ids as the empty JSON array rather than the null
used for an absent list. -/
theorem c10_empty_attachment_list (mm : Mattermost) (net : Net) (message : String) :
    sendMessageWithFiles mm net message [] = sendMessage mm net message (some []) ∧
    messageSchema mm.channel_id message (some []) =
      Json.obj (.cons "channel_id" (.str mm.channel_id) (.cons "message" (.str message)
        (.cons "file_ids" (Json.arr .nil) .nil))) := by
  constructor
  · simp [sendMessageWithFiles, uploadAll]
  · rfl

/-- C8: every GET request the dispatcher issues carries the fixed request
timeout of 10, and every POST request it issues carries no timeout
argument. -/
theorem c8_timeout_asymmetry (mm : Mattermost) (net : Net) (urlG urlP : String)
    (params : Option (List (String × String))) (data : Option String)
    (json_content : Bool) (content : Option (List Nat)) :
    (∀ req ∈ (sendGet mm net urlG params).1, req.timeout = some 10) ∧
    (∀ req ∈ (sendPost mm net urlP data json_content content).1, req.timeout = none) := by
  constructor
  · intro req hreq
    simp only [sendGet, List.mem_singleton] at hreq
    subst hreq
    rfl
  · intro req hreq
    simp only [sendPost, List.mem_singleton] at hreq
    subst hreq
    rfl

/-- Witness for C8 at a concrete configuration, network and urls. -/
theorem c8_timeout_asymmetry_witness :
    (mkGetRequest mm0 "http://mm/x" none).timeout = some 10 ∧
    (mkPostRequest mm0 "http://mm/y" none true none).timeout = none :=
  ⟨(c8_timeout_asymmetry mm0 netEmptyObj "http://mm/x" "http://mm/y" none none true none).1
      (mkGetRequest mm0 "http://mm/x" none) (List.Mem.head _),
   (c8_timeout_asymmetry mm0 netEmptyObj "http://mm/x" "http://mm/y" none none true none).2
      (mkPostRequest mm0 "http://mm/y" none true none) (List.Mem.head _)⟩

/-- C5: on a response whose status code is outside 200, 201 and 404, both
dispatch operations fail with a ReqError carrying that numeric status
code, and that error is recognized by the ReqError hierarchy. -/
theorem c5_error_status_reqError (mm : Mattermost) (net : Net) (urlG urlP : String)
    (params : Option (List (String × String))) (data : Option String) (json_content : Bool)
    (content : Option (List Nat)) (rg rp : Response)
    (hg : net (mkGetRequest mm urlG params) = .ok rg)
    (hp : net (mkPostRequest mm urlP data json_content content) = .ok rp)
    (hg200 : rg.status_code ≠ 200) (hg201 : rg.status_code ≠ 201) (hg404 : rg.status_code ≠ 404)
    (hp200 : rp.status_code ≠ 200) (hp201 : rp.status_code ≠ 201) (hp404 : rp.status_code ≠ 404) :
    sendGet mm net urlG params = ([mkGetRequest mm urlG params],
      .error (.reqError ("Got error status code, " ++ toString rg.status_code))) ∧
    sendPost mm net urlP data json_content content =
      ([mkPostRequest mm urlP data json_content content],
       .error (.reqError ("Got error status code, " ++ toString rp.status_code))) ∧
    (PyErr.reqError ("Got error status code, " ++ toString rg.status_code)).isReqError = true ∧
    (PyErr.reqError ("Got error status code, " ++ toString rp.status_code)).isReqError = true := by
  refine ⟨?_, ?_, rfl, rfl⟩
  · simp [sendGet, hg, dispatchOutcome_badStatus rg hg200 hg201 hg404]
  · simp [sendPost, hp, dispatchOutcome_badStatus rp hp200 hp201 hp404]

/-- Witness for C5 at a concrete network answering with status 500. -/
theorem c5_error_status_reqError_witness :
    sendGet mm0 net500 "http://mm/x" none = ([mkGetRequest mm0 "http://mm/x" none],
      .error (.reqError ("Got error status code, " ++ toString (500 : Nat)))) ∧
    sendPost mm0 net500 "http://mm/y" none true none =
      ([mkPostRequest mm0 "http://mm/y" none true none],
       .error (.reqError ("Got error status code, " ++ toString (500 : Nat)))) ∧
    (PyErr.reqError ("Got error status code, " ++ toString (500 : Nat))).isReqError = true ∧
    (PyErr.reqError ("Got error status code, " ++ toString (500 : Nat))).isReqError = true :=
  by
  refine c5_error_status_reqError mm0 net500 "http://mm/x" "http://mm/y" none none true none
    { status_code := 500, text := "err" } { status_code := 500, text := "err" } rfl rfl
    ?_ ?_ ?_ ?_ ?_ ?_ <;> decide

/-- C6: on a 404 response both dispatch operations fail with
NotFoundError, every NotFoundError is recognized as a ReqError, and every
ReqError is recognized as a MattermostError. -/
theorem c6_notFound_hierarchy (mm : Mattermost) (net : Net) (urlG urlP : String)
    (params : Option (List (String × String))) (data : Option String) (json_content : Bool)
    (content : Option (List Nat)) (rg rp : Response)
    (hg : net (mkGetRequest mm urlG params) = .ok rg)
    (hp : net (mkPostRequest mm urlP data json_content content) = .ok rp)
    (hg404 : rg.status_code = 404) (hp404 : rp.status_code = 404) :
    sendGet mm net urlG params = ([mkGetRequest mm urlG params],
      .error (.notFoundError "Not found somewhere")) ∧
    sendPost mm net urlP data json_content content =
      ([mkPostRequest mm urlP data json_content content],
       .error (.notFoundError "Not found somewhere")) ∧
    (∀ e : PyErr, e.isNotFoundError = true → e.isReqError = true) ∧
    (∀ e : PyErr, e.isReqError = true → e.isMattermostError = true) := by
  refine ⟨?_, ?_, ?_, ?_⟩
  · simp [sendGet, hg, dispatchOutcome_notFound rg hg404]
  · simp [sendPost, hp, dispatchOutcome_notFound rp hp404]
  · intro e he
    cases e <;> simp_all [PyErr.isNotFoundError, PyErr.isReqError]
  · intro e he
    cases e <;> simp_all [PyErr.isReqError, PyErr.isMattermostError]

/-- Witness for C6 at a concrete network answering with status 404. -/
theorem c6_notFound_hierarchy_witness :
    sendGet mm0 net404 "http://mm/x" none = ([mkGetRequest mm0 "http://mm/x" none],
      .error (.notFoundError "Not found somewhere")) ∧
    sendPost mm0 net404 "http://mm/y" none true none =
      ([mkPostRequest mm0 "http://mm/y" none true none],
       .error (.notFoundError "Not found somewhere")) ∧
    (∀ e : PyErr, e.isNotFoundError = true → e.isReqError = true) ∧
    (∀ e : PyErr, e.isReqError = true → e.isMattermostError = true) :=
  c6_notFound_hierarchy mm0 net404 "http://mm/x" "http://mm/y" none none true none
    { status_code := 404, text := "nf" } { status_code := 404, text := "nf" } rfl rfl rfl rfl

/-- C3: for every message text and every two-element attachment list whose
uploads succeed, send_message_with_files issues the first upload and then
the second, in input order, and then behaves exactly as send_message
called with the two returned ids in that same order; each upload's
request list is the single POST to the files endpoint for its filename. -/
theorem c3_two_files_in_order (mm : Mattermost) (net : Net) (message n1 n2 : String)
    (b1 b2 : List Nat) (id1 id2 : Json) (t1 t2 : List Request)
    (h1 : uploadFile mm net n1 b1 = (t1, .ok id1))
    (h2 : uploadFile mm net n2 b2 = (t2, .ok id2)) :
    sendMessageWithFiles mm net message [(n1, b1), (n2, b2)] =
      (t1 ++ t2 ++ (sendMessage mm net message (some [id1, id2])).1,
       (sendMessage mm net message (some [id1, id2])).2) ∧
    t1 = [mkPostRequest mm (mm.url ++ "/api/v4/files?channel_id=" ++ mm.channel_id ++
      "&filename=" ++ n1) none false (some b1)] ∧
    t2 = [mkPostRequest mm (mm.url ++ "/api/v4/files?channel_id=" ++ mm.channel_id ++
      "&filename=" ++ n2) none false (some b2)] := by
  refine ⟨?_, ?_, ?_⟩
  · simp [sendMessageWithFiles, uploadAll, h1, h2, List.append_assoc]
  · have := congrArg Prod.fst h1
    simpa [uploadFile, sendPost] using this.symm
  · have := congrArg Prod.fst h2
    simpa [uploadFile, sendPost] using this.symm

/-- Witness for C3: concrete uploads of a.png and b.png receive ids idA
and idB and the message is then sent with exactly those ids in order. -/
theorem c3_two_files_in_order_witness :
    sendMessageWithFiles mm0 netUploads "hi" [("a.png", [1]), ("b.png", [2])] =
      ((uploadFile mm0 netUploads "a.png" [1]).1 ++ (uploadFile mm0 netUploads "b.png" [2]).1 ++
        (sendMessage mm0 netUploads "hi" (some [Json.str "idA", Json.str "idB"])).1,
       (sendMessage mm0 netUploads "hi" (some [Json.str "idA", Json.str "idB"])).2) ∧
    (uploadFile mm0 netUploads "a.png" [1]).1 =
      [mkPostRequest mm0 (mm0.url ++ "/api/v4/files?channel_id=" ++ mm0.channel_id ++
        "&filename=" ++ "a.png") none false (some [1])] ∧
    (uploadFile mm0 netUploads "b.png" [2]).1 =
      [mkPostRequest mm0 (mm0.url ++ "/api/v4/files?channel_id=" ++ mm0.channel_id ++
        "&filename=" ++ "b.png") none false (some [2])] :=
  c3_two_files_in_order mm0 netUploads "hi" "a.png" "b.png" [1] [2]
    (Json.str "idA") (Json.str "idB") _ _ rfl rfl

/-- C4: when the first upload of a two-file call succeeds and the second
upload fails, send_message_with_files stops after the two uploads — the
requests it issued are exactly theirs, so send_message is never invoked —
and fails with exactly the second upload's error. -/
theorem c4_second_upload_fail_fast (mm : Mattermost) (net : Net) (message n1 n2 : String)
    (b1 b2 : List Nat) (id1 : Json) (e : PyErr) (t1 t2 : List Request)
    (h1 : uploadFile mm net n1 b1 = (t1, .ok id1))
    (h2 : uploadFile mm net n2 b2 = (t2, .error e)) :
    sendMessageWithFiles mm net message [(n1, b1), (n2, b2)] = (t1 ++ t2, .error e) := by
  simp [sendMessageWithFiles, uploadAll, h1, h2]

/-- Witness for C4: the upload of b.png is answered with 404, so the
whole call fails with that NotFoundError after issuing only the two
upload requests. -/
theorem c4_second_upload_fail_fast_witness :
    sendMessageWithFiles mm0 netSecondUploadFails "hi" [("a.png", [1]), ("b.png", [2])] =
      ((uploadFile mm0 netSecondUploadFails "a.png" [1]).1 ++
        (uploadFile mm0 netSecondUploadFails "b.png" [2]).1,
       .error (.notFoundError "Not found somewhere")) :=
  c4_second_upload_fail_fast mm0 netSecondUploadFails "hi" "a.png" "b.png" [1] [2]
    (Json.str "idA") (.notFoundError "Not found somewhere") _ _ rfl rfl

/-- C1 (amended): upload_file returns exactly the outcome of the
subscript chain response["file_infos"][0]["id"] on the decoded response;
when that path is absent, the call fails with the corresponding untyped
Python lookup error (KeyError, IndexError or TypeError), which the
ReqError hierarchy does not recognize. -/
theorem c1_upload_returns_file_id_path (mm : Mattermost) (net : Net) (filename : String)
    (content : List Nat) (t : List Request) (r : Json)
    (h : sendPost mm net (mm.url ++ "/api/v4/files?channel_id=" ++ mm.channel_id ++
      "&filename=" ++ filename) none false (some content) = (t, .ok r)) :
    uploadFile mm net filename content = (t, fileIdPath r) ∧
    (∀ e, fileIdPath r = .error e → e.isReqError = false) := by
  constructor
  · simp only [uploadFile]
    rw [h]
    simp [Except.bind]
  · intro e he
    exact fileIdPath_not_reqError r e he

/-- Counterexample to C1 as stated: on a response decoding to the empty
JSON object the file_infos path is absent, and uploadFile fails with
KeyError "file_infos", which is not recognized as a ReqError — not with a
typed RequestError. -/
theorem c1_claim_counterexample :
    uploadFile mm0 netEmptyObj "a.png" [7] =
      ([mkPostRequest mm0 (mm0.url ++ "/api/v4/files?channel_id=" ++ mm0.channel_id ++
        "&filename=" ++ "a.png") none false (some [7])],
       .error (.keyError "file_infos")) ∧
    (PyErr.keyError "file_infos").isReqError = false :=
  ⟨rfl, rfl⟩

/-- Witness for the amended C1 at a concrete upload whose response does
carry a file id. -/
theorem c1_upload_returns_file_id_path_witness :
    uploadFile mm0 netUploads "a.png" [1] =
      ([mkPostRequest mm0 (mm0.url ++ "/api/v4/files?channel_id=" ++ mm0.channel_id ++
        "&filename=" ++ "a.png") none false (some [1])],
       fileIdPath (Json.obj (.cons "file_infos"
         (.arr (.cons (.obj (.cons "id" (.str "idA") .nil)) .nil)) .nil))) ∧
    (∀ e, fileIdPath (Json.obj (.cons "file_infos"
      (.arr (.cons (.obj (.cons "id" (.str "idA") .nil)) .nil)) .nil)) = .error e →
      e.isReqError = false) :=
  c1_upload_returns_file_id_path mm0 netUploads "a.png" [1] _ _ rfl

/-- C2 (amended): on a 200 or 201 response both dispatch operations
return a valid JSON body decoded and unchanged, and fail on a body that
is not valid JSON with the json.loads failure (json.JSONDecodeError, a
ValueError), which the ReqError hierarchy does not recognize. -/
theorem c2_success_body_decoding (mm : Mattermost) (net : Net) (urlG urlP : String)
    (params : Option (List (String × String))) (data : Option String) (json_content : Bool)
    (content : Option (List Nat)) (rg rp : Response)
    (hg : net (mkGetRequest mm urlG params) = .ok rg)
    (hp : net (mkPostRequest mm urlP data json_content content) = .ok rp)
    (hsg : rg.status_code = 200 ∨ rg.status_code = 201)
    (hsp : rp.status_code = 200 ∨ rp.status_code = 201) :
    (∀ j, Json.loads rg.text = some j →
      sendGet mm net urlG params = ([mkGetRequest mm urlG params], .ok j)) ∧
    (Json.loads rg.text = none →
      sendGet mm net urlG params = ([mkGetRequest mm urlG params],
        .error (.jsonDecodeError rg.text))) ∧
    (∀ j, Json.loads rp.text = some j →
      sendPost mm net urlP data json_content content =
        ([mkPostRequest mm urlP data json_content content], .ok j)) ∧
    (Json.loads rp.text = none →
      sendPost mm net urlP data json_content content =
        ([mkPostRequest mm urlP data json_content content],
         .error (.jsonDecodeError rp.text))) ∧
    (∀ doc, (PyErr.jsonDecodeError doc).isReqError = false) := by
  refine ⟨?_, ?_, ?_, ?_, fun doc => rfl⟩
  · intro j hj
    simp [sendGet, hg, (dispatchOutcome_success rg hsg).1 j hj]
  · intro hn
    simp [sendGet, hg, (dispatchOutcome_success rg hsg).2 hn]
  · intro j hj
    simp [sendPost, hp, (dispatchOutcome_success rp hsp).1 j hj]
  · intro hn
    simp [sendPost, hp, (dispatchOutcome_success rp hsp).2 hn]

/-- Counterexample to C2 as stated: a 201 response whose body "oops" is
not valid JSON makes the POST dispatch fail with a json.JSONDecodeError,
which is not recognized as a ReqError — not with a RequestError. -/
theorem c2_claim_counterexample :
    sendPost mm0 netGetJsonPostBad "http://mm/y" none true none =
      ([mkPostRequest mm0 "http://mm/y" none true none], .error (.jsonDecodeError "oops")) ∧
    Json.loads "oops" = none ∧
    (PyErr.jsonDecodeError "oops").isReqError = false :=
  ⟨rfl, rfl, rfl⟩

/-- Witness for the amended C2 at a concrete network answering GET with a
JSON body and POST with a body that is not JSON. -/
theorem c2_success_body_decoding_witness :
    (∀ j, Json.loads "\x7b\"id\": \"abc\"\x7d" = some j →
      sendGet mm0 netGetJsonPostBad "http://mm/x" none =
        ([mkGetRequest mm0 "http://mm/x" none], .ok j)) ∧
    (Json.loads "\x7b\"id\": \"abc\"\x7d" = none →
      sendGet mm0 netGetJsonPostBad "http://mm/x" none =
        ([mkGetRequest mm0 "http://mm/x" none], .error (.jsonDecodeError "\x7b\"id\": \"abc\"\x7d"))) ∧
    (∀ j, Json.loads "oops" = some j →
      sendPost mm0 netGetJsonPostBad "http://mm/y" none true none =
        ([mkPostRequest mm0 "http://mm/y" none true none], .ok j)) ∧
    (Json.loads "oops" = none →
      sendPost mm0 netGetJsonPostBad "http://mm/y" none true none =
        ([mkPostRequest mm0 "http://mm/y" none true none], .error (.jsonDecodeError "oops"))) ∧
    (∀ doc, (PyErr.jsonDecodeError doc).isReqError = false) :=
  c2_success_body_decoding mm0 netGetJsonPostBad "http://mm/x" "http://mm/y" none none true none
    { status_code := 200, text := "\x7b\"id\": \"abc\"\x7d" } { status_code := 201, text := "oops" }
    rfl rfl (Or.inl rfl) (Or.inr rfl)
